import Mathlib

/-!
Verification development for the ezbedrock conversation context-window
manager (`ezbedrock/conversation.py`).

The `Conversation` class is embedded shallowly:

* a Python message dict `{"role": r, "content": c}` becomes a `Message`;
* the mutable object state (`history`, `system_prompt`, `max_token_limit`,
  `full_history`) becomes the record `Conversation.State`, and each method
  becomes a pure function from state to state;
* the external Bedrock client used for summarization
  (`self.client.invoke_model(...)`) is a parameter of type
  `Client := String → Except String String`: it receives the summarization
  prompt and either returns generated text or fails (a raised exception is
  `Except.error`);
* the transport call inside `send` (`self.client.client.converse(...)`)
  is likewise passed in as its outcome, `Except String String`, where the
  `ok` payload is the extracted text response;
* Python `int` is `Int` (`max_token_limit` may be negative); `len(s)` is
  `String.length`; `//` on non-negative values is `Nat` division.
-/

/-- A history entry, Python `{"role": role, "content": content}`
(`conversation.py` line 24). -/
structure Message where
  role : String
  content : String
deriving DecidableEq, Repr

/-- The external model client as used by `_create_summary`: given the
summarization prompt, return the model text or fail. -/
abbrev Client := String → Except String String

namespace Conversation

/-- The mutable fields of the Python `Conversation` object
(`conversation.py` lines 16-20). -/
structure State where
  history : List Message
  system_prompt : Option String
  max_token_limit : Int
  full_history : List Message
deriving DecidableEq, Repr

/-- Python `Conversation.__init__` (lines 7-20): stores the arguments, empty
histories, no validation of any kind is performed. -/
def init (system_prompt : Option String) (max_token_limit : Int) : State :=
  { history := [], system_prompt := system_prompt,
    max_token_limit := max_token_limit, full_history := [] }

/-- Python `_estimate_token_count` (lines 29-31): `len(text) // 4`
(Python floor division; lengths are non-negative, so `Nat` division). -/
def estimate_token_count (text : String) : Nat :=
  text.length / 4

/-- The sum computed at line 36:
`sum(self._estimate_token_count(msg["content"]) for msg in self.history)`. -/
def currentUsage (st : State) : Nat :=
  (st.history.map (fun m => estimate_token_count m.content)).sum

/-- The fixed fallback string returned when summarization fails (line 91). -/
def fallback_text : String :=
  "Previous messages were summarized but details are not available."

/-- Line 67: `"\n\n".join(f"{msg['role'].upper()}:\n{msg['content']}" ...)`. -/
def conversation_text (messages : List Message) : String :=
  String.intercalate "\n\n"
    (messages.map (fun m => m.role.toUpper ++ ":\n" ++ m.content))

/-- The summarization prompt built at lines 70-78 (Python adjacent string
literals concatenate). -/
def summary_prompt (messages : List Message) : String :=
  "You are tasked with summarizing a conversation history. " ++
  "Create a concise but informative summary that captures the key points, " ++
  "decisions, and important context from this conversation. " ++
  "This summary will replace older messages while maintaining context " ++
  "for the rest of the conversation.\n\n" ++
  "CONVERSATION HISTORY TO SUMMARIZE:\n" ++
  conversation_text messages

/-- Python `_create_summary` (lines 64-91).  The client call is made with fixed
options (`max_tokens=300`, `temperature=0.2`, a dedicated system prompt);
those options live inside the collaborator and are absorbed into `client`.
On success the text is wrapped (line 88); on any exception the fixed
fallback is returned (lines 89-91). -/
def create_summary (client : Client) (messages : List Message) : String :=
  match client (summary_prompt messages) with
  | Except.ok summary => "CONVERSATION SUMMARY (previous messages): " ++ summary
  | Except.error _ => fallback_text

/-- Python `_manage_context_window` (lines 33-62).

Python slice footnote: `keep_count = min(6, len(non_system))`, and the
slices `non_system[-keep_count:]` / `non_system[:-keep_count]` equal
`drop (len - keep_count)` / `take (len - keep_count)` in every case: when
`non_system` is non-empty, `keep_count ≥ 1` and the negative index means
exactly that; when it is empty, `keep_count = 0` and both sides are `[]`. -/
def manage_context_window (client : Client) (st : State) : State :=
  let current_tokens := currentUsage st
  if (current_tokens : Int) ≤ st.max_token_limit then
    st
  else
    let system_messages := st.history.filter (fun m => m.role == "system")
    let non_system_messages := st.history.filter (fun m => m.role != "system")
    let keep_count := min 6 non_system_messages.length
    let recent_messages :=
      non_system_messages.drop (non_system_messages.length - keep_count)
    let old_messages :=
      non_system_messages.take (non_system_messages.length - keep_count)
    if 4 ≤ old_messages.length then
      let summary_text := create_summary client old_messages
      { st with history :=
          system_messages ++ [Message.mk "system" summary_text]
            ++ recent_messages }
    else
      { st with history := system_messages ++ recent_messages }

/-- Python `add_message` (lines 22-27): append the message to both `history` and
`full_history`, then run the compaction check. -/
def add_message (client : Client) (st : State) (content : String)
    (role : String) : State :=
  let message : Message := Message.mk role content
  manage_context_window client
    { st with history := st.history ++ [message],
              full_history := st.full_history ++ [message] }

/-- One entry of the outbound message list built by `send`
(lines 104-108): `{"role": r, "content": [{"text": t}]}` — the content
list always holds exactly one text item, so it is flattened to `text`. -/
structure ApiMessage where
  role : String
  text : String
deriving DecidableEq, Repr

/-- The delimiter block of line 116:
`f"<instructions>\n{self.system_prompt}\n</instructions>\n\n"`. -/
def instruction_block (sp : String) : String :=
  "<instructions>\n" ++ sp ++ "\n</instructions>\n\n"

/-- The outbound message list assembled by `send` (lines 100-118):
skip `"system"`-role turns, then, when a system prompt is configured
(Python truthiness: `None` and `""` are falsy) and the list is non-empty
and its first entry has role `"user"`, prepend the instruction block to
that first entry's text. -/
def build_messages (st : State) : List ApiMessage :=
  let messages :=
    (st.history.filter (fun m => m.role != "system")).map
      (fun m => ApiMessage.mk m.role m.content)
  match st.system_prompt with
  | none => messages
  | some sp =>
    if sp == "" then messages
    else
      match messages with
      | [] => []
      | first :: rest =>
        if first.role == "user" then
          ApiMessage.mk first.role (instruction_block sp ++ first.text) :: rest
        else
          first :: rest

/-- Python `send` (lines 93-144).  The user turn is appended first (line 98); the
outbound list is built; the transport outcome `converse` is the result of
`self.client.client.converse(...)` with the text already extracted
(lines 134-139).  If the transport raises, the exception propagates and
the object keeps the state with only the user turn appended; on success
the assistant turn is appended (line 142) and the text returned. -/
def send (client : Client) (converse : Except String String) (st : State)
    (message : String) : State × Except String String :=
  let st1 := add_message client st message "user"
  let _messages := build_messages st1
  match converse with
  | Except.error e => (st1, Except.error e)
  | Except.ok text_response =>
      (add_message client st1 text_response "assistant",
        Except.ok text_response)

/-- Python `get_full_history` (lines 146-148). -/
def get_full_history (st : State) : List Message :=
  st.full_history

/-- Python `clear_history` (lines 150-153). -/
def clear_history (st : State) : State :=
  { st with history := [], full_history := [] }

/-- A sequence of `add_message` calls, each pair `(content, role)` in call
order. -/
def appendAll (client : Client) (st : State)
    (msgs : List (String × String)) : State :=
  msgs.foldl (fun s p => add_message client s p.1 p.2) st

end Conversation

open Conversation

/-- A client whose model call always fails (any raised exception lands in
the `except` branch of `_create_summary`). -/
def failClient : Client := fun _ => Except.error "transport failure"

/-- Spec vocabulary (spec 4.1 step 2): `systemTurns`, the System-role part
of the partition of `history` (code line 44). -/
def systemTurns (st : State) : List Message :=
  st.history.filter (fun m => m.role == "system")

/-- Spec vocabulary (spec 4.1 step 2): `others`, the non-System part of
the partition of `history` (code line 45). -/
def otherTurns (st : State) : List Message :=
  st.history.filter (fun m => m.role != "system")

/-- Spec vocabulary (spec 4.1 step 3): `keepCount = min(recentKeepCount, len(others))`
with `recentKeepCount = 6` (code line 48). -/
def keepCount (st : State) : Nat :=
  min 6 (otherTurns st).length

/-- Spec vocabulary (spec 4.1 step 3): `old = others[all but last keepCount]`,
written with Mathlib's drop-from-the-right. -/
def oldTurns (st : State) : List Message :=
  (otherTurns st).rdrop (keepCount st)

/-- Spec vocabulary (spec 4.1 step 3): `recent = others[last keepCount]`,
written with Mathlib's take-from-the-right. -/
def recentTurns (st : State) : List Message :=
  (otherTurns st).rtake (keepCount st)

/-- Unfolding `otherTurns` to the `!(· == ·)` form of the code's filter. -/
lemma otherTurns_eq_filter_not (st : State) :
    otherTurns st = st.history.filter (fun m => !(m.role == "system")) := rfl

/-- Compaction below or at budget is the identity (code lines 38-39). -/
lemma manage_under_budget (client : Client) (st : State)
    (h : (currentUsage st : Int) ≤ st.max_token_limit) :
    manage_context_window client st = st := by
  simp only [manage_context_window]
  rw [if_pos h]

/-- Compaction above budget rebuilds `history` as described at code
lines 43-62, phrased through the spec vocabulary. -/
lemma manage_over_budget (client : Client) (st : State)
    (h : st.max_token_limit < (currentUsage st : Int)) :
    (manage_context_window client st).history =
      if 4 ≤ (oldTurns st).length then
        systemTurns st
          ++ [Message.mk "system" (create_summary client (oldTurns st))]
          ++ recentTurns st
      else
        systemTurns st ++ recentTurns st := by
  simp only [manage_context_window]
  rw [if_neg (not_le.mpr h)]
  simp only [oldTurns, recentTurns, systemTurns, otherTurns, keepCount,
    List.rdrop, List.rtake]
  split <;> rfl

/-- Compaction never touches the archive `full_history`. -/
lemma manage_full_history (client : Client) (st : State) :
    (manage_context_window client st).full_history = st.full_history := by
  simp only [manage_context_window]
  split
  · rfl
  · split <;> rfl

/-- Compaction never touches `system_prompt` or `max_token_limit`. -/
lemma manage_config (client : Client) (st : State) :
    (manage_context_window client st).system_prompt = st.system_prompt ∧
    (manage_context_window client st).max_token_limit = st.max_token_limit := by
  simp only [manage_context_window]
  split
  · exact ⟨rfl, rfl⟩
  · split <;> exact ⟨rfl, rfl⟩

/-- Splitting a mapped sum over the two halves of a Boolean filter. -/
lemma sum_map_filter_add (f : Message → Nat) (p : Message → Bool)
    (l : List Message) :
    ((l.filter p).map f).sum + ((l.filter (fun a => !(p a))).map f).sum
      = (l.map f).sum := by
  induction l with
  | nil => rfl
  | cons a l ih =>
    cases h : p a <;>
      simp only [List.filter_cons, h, Bool.not_true, Bool.not_false,
        cond_true, cond_false, if_pos, if_true, if_false, List.map_cons,
        List.sum_cons, Bool.false_eq_true, ite_false, ite_true] <;>
      omega

/-- A mapped sum over a suffix is at most the mapped sum over the list. -/
lemma sum_map_drop_le (f : Message → Nat) (l : List Message) (n : Nat) :
    ((l.drop n).map f).sum ≤ (l.map f).sum := by
  conv_rhs => rw [← List.take_append_drop n l]
  rw [List.map_append, List.sum_append]
  exact Nat.le_add_left _ _

/-- C4, counterexample: on the one-character text `"a"` the code computes
`len("a") // 4 = 0`, while `ceil(1 / 4) = 1`; so `estimateTokens` is not
`ceil(characterCount / 4)`. -/
theorem c4_counterexample :
    estimate_token_count "a" = 0 ∧ ("a".length + 4 - 1) / 4 = 1 ∧
    estimate_token_count "a" ≠ ("a".length + 4 - 1) / 4 := by
  decide

/-- C4, amended: for every string `text`, `estimateTokens(text)` equals the
floor of `characterCount / 4` — characterized by
`4 * q ≤ characterCount < 4 * q + 4`. -/
theorem c4_estimate_floor (s : String) :
    4 * estimate_token_count s ≤ s.length ∧
    s.length < 4 * estimate_token_count s + 4 := by
  unfold estimate_token_count
  have h := Nat.div_add_mod s.length 4
  have h2 : s.length % 4 < 4 := Nat.mod_lt _ (by norm_num)
  omega

/-- C5: compaction never touches the archive, and after any sequence of
`add_message` calls `full_history` is exactly the prior archive followed
by the appended turns in call order — nothing is removed or reordered. -/
theorem c5_full_history_order (client : Client) :
    (∀ st, (manage_context_window client st).full_history = st.full_history)
    ∧ ∀ st msgs, (appendAll client st msgs).full_history
        = st.full_history ++ msgs.map (fun p => Message.mk p.2 p.1) := by
  refine ⟨manage_full_history client, ?_⟩
  intro st msgs
  induction msgs generalizing st with
  | nil => simp [appendAll]
  | cons p msgs ih =>
    simp only [appendAll, List.foldl_cons] at ih ⊢
    rw [ih]
    simp [add_message, manage_full_history]

/-- C6: if the model call inside `_create_summary` raises, the produced
summary text is exactly the fixed fallback string, and `add_message`
(hence `append`) still completes normally, archiving the new turn —
summarization failures never propagate. -/
theorem c6_summary_fallback (client : Client) (msgs : List Message)
    (e : String) (h : client (summary_prompt msgs) = Except.error e) :
    create_summary client msgs = fallback_text ∧
    ∀ st content role, (add_message client st content role).full_history
        = st.full_history ++ [Message.mk role content] := by
  constructor
  · unfold create_summary
    rw [h]
  · intro st content role
    simp [add_message, manage_full_history]

/-- Witness for C6 at a concrete failing client and batch. -/
theorem c6_summary_fallback_witness :
    create_summary failClient [Message.mk "user" "hi"] = fallback_text :=
  (c6_summary_fallback failClient [Message.mk "user" "hi"]
    "transport failure" rfl).1

/-- C8, counterexample: constructing a conversation with
`max_token_limit = 0` (an invalid budget per the claim) is accepted — the
object is built with that budget, and messages can then be appended; no
`ConfigurationError` path exists in `__init__` (lines 7-20 store the
arguments and validate nothing). -/
theorem c8_counterexample :
    (init none 0).max_token_limit = 0 ∧
    (init none 0).history = [] ∧
    (add_message failClient (init none 0) "hi" "user").full_history
      = [Message.mk "user" "hi"] := by
  decide

/-- C8, amended: construction performs no budget validation — any
`max_token_limit`, including values `≤ 0`, is accepted and stored, and the
resulting object accepts appends normally. -/
theorem c8_no_validation (sp : Option String) (mtl : Int) (h : mtl ≤ 0) :
    (init sp mtl).max_token_limit = mtl ∧
    (init sp mtl).history = [] ∧
    (init sp mtl).full_history = [] ∧
    ∀ client content role,
      (add_message client (init sp mtl) content role).full_history
        = [Message.mk role content] := by
  refine ⟨rfl, rfl, rfl, ?_⟩
  intro client content role
  simp [add_message, manage_full_history, init]

/-- Witness for C8 (amended) at the concrete invalid budget `-5`. -/
theorem c8_no_validation_witness :
    (init none (-5)).max_token_limit = -5 :=
  (c8_no_validation none (-5) (by decide)).1

/-- C10: when the transport call inside `send` fails, the error propagates
unchanged, and the state is exactly the one with the user turn already
appended — the user turn remains, no assistant turn is added (`send` is
not atomic). -/
theorem c10_send_error_state (client : Client) (st : State)
    (msg e : String) :
    send client (Except.error e) st msg
      = (add_message client st msg "user", Except.error e) ∧
    (send client (Except.error e) st msg).1.full_history
      = st.full_history ++ [Message.mk "user" msg] := by
  refine ⟨rfl, ?_⟩
  simp [send, add_message, manage_full_history]

/-- A concrete over-budget state: one four-character user turn against a
zero budget (estimated usage 1 > 0). -/
def c1_state : State :=
  { history := [Message.mk "user" "aaaa"], system_prompt := none,
    max_token_limit := 0, full_history := [Message.mk "user" "aaaa"] }

/-- C1: when the history is over budget, the compaction step partitions it
into system turns and others (order preserved, it is exactly
`List.partition`), keeps as `recent` the last `min(6, len(others))`
non-system turns, and rebuilds the history as
`systemTurns ++ [summary] ++ recent` when the remaining old turns number
at least 4, and as `systemTurns ++ recent` (old turns dropped without
summarizing) otherwise. -/
theorem c1_compaction_shape (client : Client) (st : State)
    (h : st.max_token_limit < (currentUsage st : Int)) :
    st.history.partition (fun m => m.role == "system")
      = (systemTurns st, otherTurns st) ∧
    recentTurns st = ((otherTurns st).reverse.take (keepCount st)).reverse ∧
    (manage_context_window client st).history =
      (if 4 ≤ (oldTurns st).length then
        systemTurns st
          ++ [Message.mk "system" (create_summary client (oldTurns st))]
          ++ recentTurns st
      else
        systemTurns st ++ recentTurns st) := by
  refine ⟨?_, List.rtake_eq_reverse_take_reverse _ _, manage_over_budget client st h⟩
  rw [List.partition_eq_filter_filter]
  rfl

/-- Witness for C1 at the concrete over-budget state `c1_state`. -/
theorem c1_compaction_shape_witness :
    (manage_context_window failClient c1_state).history =
      (if 4 ≤ (oldTurns c1_state).length then
        systemTurns c1_state
          ++ [Message.mk "system" (create_summary failClient (oldTurns c1_state))]
          ++ recentTurns c1_state
      else
        systemTurns c1_state ++ recentTurns c1_state) :=
  (c1_compaction_shape failClient c1_state (by decide)).2.2

/-- A fourteen-append trace against budget 30 (contents are `a`-strings of
lengths 28, 12 and 48, estimating to 7, 3 and 12 tokens; empty contents
estimate to 0).  Appends 1-9 stay at or under budget; append 10 triggers a
first summarization (old batch = appends 1-4); appends 11-13 stay under
budget again; append 14 triggers a second summarization while the first
summary turn — stored with role `"system"` — survives as a "system
message". -/
def c3trace : List (String × String) :=
  [("aaaaaaaaaaaaaaaaaaaaaaaaaaaa", "user"),
   ("aaaaaaaaaaaaaaaaaaaaaaaaaaaa", "assistant"),
   ("aaaaaaaaaaaaaaaaaaaaaaaaaaaa", "user"),
   ("aaaaaaaaaaaaaaaaaaaaaaaaaaaa", "assistant"),
   ("", "user"), ("", "assistant"), ("", "user"), ("", "assistant"),
   ("", "user"), ("aaaaaaaaaaaa", "assistant"),
   ("", "user"), ("", "assistant"), ("", "user"),
   ("aaaaaaaaaaaaaaaaaaaaaaaaaaaaaaaaaaaaaaaaaaaaaaaa", "assistant")]

/-- C3, counterexample: after the fourteen appends of `c3trace`, the
active history holds TWO summary turns (both with role `"system"` and, the
client having failed, both with the fallback content), while no
`"system"`-role turn was ever appended by the caller (the archive holds
none).  A summary is stored with role `"system"`, so the next compaction
classifies it as a system message and keeps it while adding a fresh
summary — summaries accumulate, refuting "at most one". -/
theorem c3_counterexample :
    ((appendAll failClient (init none 30) c3trace).full_history.countP
        (fun m => m.role == "system")) = 0 ∧
    ((appendAll failClient (init none 30) c3trace).history.countP
        (fun m => m.role == "system")) = 2 ∧
    ((appendAll failClient (init none 30) c3trace).history.count
        (Message.mk "system" fallback_text)) = 2 := by
  refine ⟨by decide, by decide, by decide⟩

/-- C3, amended: each summarizing compaction inserts exactly one new
summary turn, with role `"system"`, placed immediately after all existing
`"system"`-role turns (which include every earlier summary, since
summaries carry that role) and before the kept recent turns; summary turns
may therefore accumulate across compactions rather than being unique. -/
theorem c3_summary_position (client : Client) (st : State)
    (h : st.max_token_limit < (currentUsage st : Int))
    (h4 : 4 ≤ (oldTurns st).length) :
    (manage_context_window client st).history =
      systemTurns st
        ++ [Message.mk "system" (create_summary client (oldTurns st))]
        ++ recentTurns st ∧
    ∀ m ∈ systemTurns st, m.role = "system" := by
  constructor
  · rw [manage_over_budget client st h, if_pos h4]
  · intro m hm
    exact eq_of_beq (List.mem_filter.mp hm).2

/-- The state just before the second summarization of `c3trace`: the first
thirteen appends, with the fourteenth turn inserted but compaction not yet
run (the compaction input at append 14). -/
def c3_pre : State :=
  let mid := appendAll failClient (init none 30) (c3trace.take 13)
  let last := Message.mk "assistant"
    "aaaaaaaaaaaaaaaaaaaaaaaaaaaaaaaaaaaaaaaaaaaaaaaa"
  { mid with history := mid.history ++ [last],
             full_history := mid.full_history ++ [last] }

/-- Witness for C3 (amended) at the concrete compaction input `c3_pre`,
whose system turns already contain the first summary. -/
theorem c3_summary_position_witness :
    (manage_context_window failClient c3_pre).history =
      systemTurns c3_pre
        ++ [Message.mk "system" (create_summary failClient (oldTurns c3_pre))]
        ++ recentTurns c3_pre :=
  (c3_summary_position failClient c3_pre (by decide) (by decide)).1

/-- A ten-append trace against budget 5: nine empty-content turns
(estimated usage stays 0, compaction never triggers) followed by one
24-character turn (6 tokens) that pushes usage to 6 and triggers
compaction with an old batch of exactly 4 turns. -/
def c2trace : List (String × String) :=
  [("", "user"), ("", "assistant"), ("", "user"), ("", "assistant"),
   ("", "user"), ("", "assistant"), ("", "user"), ("", "assistant"),
   ("", "user"), ("aaaaaaaaaaaaaaaaaaaaaaaa", "user")]

/-- The state after the first nine appends of `c2trace`. -/
def c2_before : State := appendAll failClient (init none 5) (c2trace.take 9)

/-- The compaction input at the tenth append of `c2trace`: the tenth turn
inserted into both sequences, compaction not yet run. -/
def c2_inserted : State :=
  let last := Message.mk "user" "aaaaaaaaaaaaaaaaaaaaaaaa"
  { c2_before with history := c2_before.history ++ [last],
                   full_history := c2_before.full_history ++ [last] }

/-- C2, counterexample: the tenth append of `c2trace` triggers compaction
(usage 6 > budget 5) with an old batch of length 4 ≥ minSummarizeBatch,
yet the compacted usage is 22: the inserted summary turn (here the
64-character fallback, 16 tokens) is larger than the 4 dropped empty
turns, so compaction INCREASED usage (6 to 22) and left it over budget —
refuting both "currentUsage ≤ maxEstimatedTokens OR len(old) <
minSummarizeBatch" and "compaction never increases usage". -/
theorem c2_counterexample :
    appendAll failClient (init none 5) c2trace
      = manage_context_window failClient c2_inserted ∧
    c2_inserted.max_token_limit = 5 ∧
    currentUsage c2_before = 0 ∧
    currentUsage c2_inserted = 6 ∧
    (oldTurns c2_inserted).length = 4 ∧
    currentUsage (manage_context_window failClient c2_inserted) = 22 := by
  exact ⟨rfl, rfl, by decide, by decide, by decide, by decide⟩

/-- C2, amended: the compaction check is a no-op (hence idempotent)
whenever usage is at or under budget, and when it triggers with
`len(old) < minSummarizeBatch` the old turns are dropped so usage does not
increase; but when it triggers with `len(old) ≥ minSummarizeBatch` the
summary's size is uncontrolled, so usage can increase and can remain above
the budget (see the counterexample). -/
theorem c2_budget_behavior (client : Client) (st : State) :
    ((currentUsage st : Int) ≤ st.max_token_limit →
      manage_context_window client st = st) ∧
    (st.max_token_limit < (currentUsage st : Int) →
      (oldTurns st).length < 4 →
      currentUsage (manage_context_window client st) ≤ currentUsage st) := by
  refine ⟨manage_under_budget client st, ?_⟩
  intro h h4
  have hshape := manage_over_budget client st h
  rw [if_neg (by omega)] at hshape
  have hgoal : currentUsage (manage_context_window client st)
      = ((systemTurns st).map (fun m => estimate_token_count m.content)).sum
        + ((recentTurns st).map (fun m => estimate_token_count m.content)).sum := by
    unfold currentUsage
    rw [hshape, List.map_append, List.sum_append]
  have hsplit : ((systemTurns st).map (fun m => estimate_token_count m.content)).sum
      + ((otherTurns st).map (fun m => estimate_token_count m.content)).sum
      = currentUsage st := by
    rw [otherTurns_eq_filter_not]
    exact sum_map_filter_add _ _ st.history
  have hdrop : ((recentTurns st).map (fun m => estimate_token_count m.content)).sum
      ≤ ((otherTurns st).map (fun m => estimate_token_count m.content)).sum := by
    have hr : recentTurns st
        = (otherTurns st).drop ((otherTurns st).length - keepCount st) := rfl
    rw [hr]
    exact sum_map_drop_le _ _ _
  omega

/-- A concrete over-budget state whose old batch is below the
summarization threshold: seven four-character turns against budget 5
(usage 7 > 5, old batch length 1 < 4). -/
def c2_trim : State :=
  { history :=
      [Message.mk "user" "aaaa", Message.mk "assistant" "aaaa",
       Message.mk "user" "aaaa", Message.mk "assistant" "aaaa",
       Message.mk "user" "aaaa", Message.mk "assistant" "aaaa",
       Message.mk "user" "aaaa"],
    system_prompt := none, max_token_limit := 5, full_history := [] }

/-- Witness for C2 (amended): the under-budget no-op at `c2_before`
(usage 0 ≤ 5) and the non-increasing trim at `c2_trim` (usage 7 > 5, old
batch 1 < 4). -/
theorem c2_budget_behavior_witness :
    manage_context_window failClient c2_before = c2_before ∧
    currentUsage (manage_context_window failClient c2_trim)
      ≤ currentUsage c2_trim :=
  ⟨(c2_budget_behavior failClient c2_before).1 (by decide),
   (c2_budget_behavior failClient c2_trim).2 (by decide) (by decide)⟩

/-- C7, counterexample: with system prompt `"Be concise."` configured, an
assistant turn appended first, and then the user turn appended by `send`,
the outbound list's first entry has role `"assistant"`, so the guard at
code line 113 skips the folding entirely: the system prompt appears in NO
outbound message (both texts are the original contents), refuting "folds
the system prompt into the first outbound message's content exactly
once". -/
theorem c7_counterexample :
    (add_message failClient (add_message failClient
        (init (some "Be concise.") 8000) "Hello" "assistant")
        "Why?" "user").system_prompt = some "Be concise." ∧
    build_messages (add_message failClient (add_message failClient
        (init (some "Be concise.") 8000) "Hello" "assistant")
        "Why?" "user")
      = [ApiMessage.mk "assistant" "Hello", ApiMessage.mk "user" "Why?"] := by
  exact ⟨rfl, by decide⟩

/-- C7, amended: with a (non-empty) system prompt configured, the outbound
list excludes System-role turns, and the prompt is folded into the first
outbound message only when that message's role is `"user"`: then it is
folded exactly once, as the literal instruction-block prefix followed by
the original text, and every later outbound message is the original turn
content unchanged (the prompt is never re-added); when the first outbound
message is not user-role, the prompt is omitted from the outbound list
entirely. -/
theorem c7_fold_first_user (st : State) (sp : String) (first : ApiMessage)
    (rest : List ApiMessage)
    (hsp : st.system_prompt = some sp) (hne : sp ≠ "")
    (hmsgs : (st.history.filter (fun m => m.role != "system")).map
        (fun m => ApiMessage.mk m.role m.content) = first :: rest) :
    (first.role = "user" →
      build_messages st
        = ApiMessage.mk first.role (instruction_block sp ++ first.text)
            :: rest) ∧
    (first.role ≠ "user" → build_messages st = first :: rest) := by
  constructor <;> intro hrole <;>
    simp [build_messages, hmsgs, hsp, hne, hrole]

/-- Witness for C7 (amended): a fresh conversation with prompt
`"Be concise."` and one user turn `"Why?"` — the single outbound message
is the instruction block followed by the original text. -/
theorem c7_fold_first_user_witness :
    build_messages (add_message failClient (init (some "Be concise.") 8000)
        "Why?" "user")
      = [ApiMessage.mk "user" (instruction_block "Be concise." ++ "Why?")] :=
  (c7_fold_first_user
      (add_message failClient (init (some "Be concise.") 8000) "Why?" "user")
      "Be concise." (ApiMessage.mk "user" "Why?") [] rfl (by decide) rfl).1
    rfl

/-- The outbound list depends on the state only through the non-system
part of the history and the configured system prompt. -/
lemma build_messages_congr (s t : State)
    (hf : s.history.filter (fun m => m.role != "system")
        = t.history.filter (fun m => m.role != "system"))
    (hsp : s.system_prompt = t.system_prompt) :
    build_messages s = build_messages t := by
  simp only [build_messages, hf, hsp]

/-- C9: a summarizing compaction stores its summary turn with role
`"system"` in the history; the outbound filter of `send` (code lines
105-106) then sees exactly the recent turns, so the outbound list equals
the one built from the recent turns alone — no summarized content is ever
sent to the model. -/
theorem c9_summary_never_outbound (client : Client) (st : State)
    (h : st.max_token_limit < (currentUsage st : Int))
    (h4 : 4 ≤ (oldTurns st).length) :
    Message.mk "system" (create_summary client (oldTurns st))
        ∈ (manage_context_window client st).history ∧
    (manage_context_window client st).history.filter
        (fun m => m.role != "system") = recentTurns st ∧
    build_messages (manage_context_window client st)
      = build_messages { manage_context_window client st with
          history := recentTurns st } := by
  have hshape := manage_over_budget client st h
  rw [if_pos h4] at hshape
  have hsys : (systemTurns st).filter (fun m => m.role != "system") = [] := by
    rw [List.filter_eq_nil_iff]
    intro m hm
    have hrole : m.role = "system" := eq_of_beq (List.mem_filter.mp hm).2
    simp [hrole]
  have hrec : (recentTurns st).filter (fun m => m.role != "system")
      = recentTurns st := by
    rw [List.filter_eq_self]
    intro m hm
    have hm' : m ∈ otherTurns st := List.drop_subset _ _ hm
    exact (List.mem_filter.mp hm').2
  have hfilter : (manage_context_window client st).history.filter
      (fun m => m.role != "system") = recentTurns st := by
    rw [hshape, List.filter_append, List.filter_append, hsys, hrec]
    simp
  refine ⟨?_, hfilter, ?_⟩
  · rw [hshape]
    simp
  · apply build_messages_congr
    · rw [hfilter]
      exact hrec.symm
    · rfl

/-- Witness for C9 at the concrete compaction input `c2_inserted`. -/
theorem c9_summary_never_outbound_witness :
    Message.mk "system" (create_summary failClient (oldTurns c2_inserted))
      ∈ (manage_context_window failClient c2_inserted).history :=
  (c9_summary_never_outbound failClient c2_inserted (by decide) (by decide)).1
